import Mathlib

/-!
Shallow embedding of generate_and_upload_to_dropbox.py.

External effects (HTTP responses, filesystem results, exceptions raised by
library calls) are modelled as oracle records passed to each function; a
Python exception escaping a call is an `Except.error`, and Python
try/except blocks become matches on those `Except` values.
-/

/-- A Python exception escaping a library call. -/
inductive PyErr where
  | connectionError
  | httpError
  | ioError
  | jsonError

/-- An HTTP response as seen by the script: status code and body text. -/
structure HttpResp where
  status : Nat
  text : String

/-- Tag for each outbound Dropbox request that upload_to_dropbox may issue. -/
inductive Req where
  | upload
  | share
deriving DecidableEq

/- ---------- string machinery for the dl=0 link rewrite ---------- -/

/-- The pattern replaced by link.replace in upload_to_dropbox. -/
def dl0 : List Char := "?dl=0".data

/-- The replacement used by link.replace in upload_to_dropbox. -/
def dl1 : List Char := "?dl=1".data

/-- The pattern of the Python membership test on the link. -/
def dlMark : List Char := "dl=0".data

/-- Python substring membership test (pat in s), on character lists. -/
def containsSub (pat : List Char) : List Char → Bool
  | [] => pat.isEmpty
  | c :: cs => pat.isPrefixOf (c :: cs) || containsSub pat cs

/-- Python str.replace for the concrete call link.replace of the script:
left-to-right, non-overlapping replacement of every occurrence of dl0
by dl1. Fuel-based so that it reduces definitionally; one unit of fuel is
spent per consumed character, so list length is always enough fuel. -/
def replaceDlGo : Nat → List Char → List Char
  | _, [] => []
  | 0, l => l
  | n + 1, c :: cs =>
    if dl0.isPrefixOf (c :: cs) then dl1 ++ replaceDlGo n (cs.drop 4)
    else c :: replaceDlGo n cs

/-- link.replace with the fuel instantiated. -/
def replaceDl (l : List Char) : List Char := replaceDlGo l.length l

/- ---------- constants and static data of the script ---------- -/

/-- Output file name constant OUT_FILE. -/
def OUT_FILE : String := "AI_in_Mobile_Phones_Droplet.pptx"

/-- Local image directory constant IMG_DIR. -/
def IMG_DIR : String := "ppt_images"

/-- The IMAGE_QUERIES mapping from topic key to search string. -/
def IMAGE_QUERIES : List (String × String) :=
  [("title", "smartphone,technology"),
   ("agenda", "icons,agenda"),
   ("what_is", "mobile,ai"),
   ("on_vs_cloud", "cloud,phone,diagram"),
   ("hardware", "chip,npu"),
   ("software", "tensorflow,code"),
   ("photo_voice", "camera,voice,wave"),
   ("personal_security", "face,unlock,ar"),
   ("workflow", "pipeline,workflow"),
   ("challenges", "warning,ethics"),
   ("future", "futuristic,phone"),
   ("references", "books,links")]

/-- One entry of the static slides table: title, bullets, notes, image key. -/
structure SlideSpec where
  title : String
  bullets : List String
  notes : String
  image : String

/-- The static slides table of the script, verbatim. -/
def slides : List SlideSpec :=
  [{ title := "AI in Mobile Phones",
     bullets := ["How on-device intelligence is changing mobile experiences"],
     notes := "Introduce yourself and objectives.", image := "title" },
   { title := "Agenda",
     bullets := ["What is mobile AI?", "On-device vs cloud",
                 "Hardware & software", "Use cases", "Developer workflow",
                 "Challenges & ethics", "Future trends",
                 "Appendix & references"],
     notes := "Walk through the agenda.", image := "agenda" },
   { title := "What is Mobile AI?",
     bullets := ["ML models running on/for mobile devices",
                 "Goals: personalization, performance, privacy, context awareness",
                 "Constraints: power, memory, latency"],
     notes := "Define mobile AI and constraints.", image := "what_is" },
   { title := "On-device vs Cloud AI",
     bullets := ["On-device: low latency, privacy, offline capable",
                 "Cloud: heavy compute, aggregated analytics, higher latency",
                 "Hybrid: split execution, federated learning"],
     notes := "Examples: wake word on-device vs heavy NLP in cloud.",
     image := "on_vs_cloud" },
   { title := "Enabling Hardware",
     bullets := ["NPUs, GPUs, DSPs",
                 "Memory & storage; sensors (camera, mic, IMU)",
                 "Sensor fusion & accelerators"],
     notes := "Explain role of NPUs and sensors.", image := "hardware" },
   { title := "Enabling Software & Tooling",
     bullets := ["Training: TensorFlow, PyTorch",
                 "Edge runtimes: TFLite, Core ML, ONNX",
                 "Optimizations: quantization, pruning"],
     notes := "Mention converters and quantization.", image := "software" },
   { title := "Key Use Cases — Photography & Voice",
     bullets := ["Computational photography: HDR, Night Mode",
                 "Voice: wake words, on-device speech recognition"],
     notes := "Vendor examples like Pixel and Apple.", image := "photo_voice" },
   { title := "Key Use Cases — Personalization, Security & AR",
     bullets := ["Predictive text & recommendations",
                 "Face unlock & anti-spoofing",
                 "AR overlays and scene understanding"],
     notes := "Highlight privacy benefits.", image := "personal_security" },
   { title := "Developer Workflow",
     bullets := ["Train in cloud → optimize → convert to TFLite/CoreML/ONNX",
                 "Integrate, test & profile on device, monitor & update"],
     notes := "Profile for latency, memory and power.", image := "workflow" },
   { title := "Challenges & Ethics",
     bullets := ["Battery & thermal limits",
                 "Model updates & compatibility",
                 "Privacy, bias & adversarial attacks"],
     notes := "Mitigations: differential privacy, audits.",
     image := "challenges" },
   { title := "Future Trends",
     bullets := ["Stronger on-device models as NPUs scale",
                 "Continuous personalized on-device learning",
                 "Multimodal AI and privacy-first architectures"],
     notes := "Suggest student project ideas.", image := "future" },
   { title := "Appendix — References & Glossary",
     bullets := ["TensorFlow Lite: https://www.tensorflow.org/lite",
                 "Core ML: https://developer.apple.com/documentation/coreml",
                 "ONNX Runtime: https://onnxruntime.ai",
                 "Paper: Federated Learning (McMahan et al.)"],
     notes := "References and glossary.", image := "references" }]

/- ---------- download_placeholder ---------- -/

/-- Oracle for one download_placeholder call: the outcome of requests.get
(an exception or a response) and of opening/writing the local file. -/
structure FetchEnv where
  getResp : Except PyErr HttpResp
  writeOk : Except PyErr Unit

/-- download_placeholder: GET the image, raise_for_status (raises exactly on
a 4xx/5xx status), write the bytes to IMG_DIR/name.jpg, return the path;
the surrounding try/except turns any raised exception into None. -/
def download_placeholder (name : String) (env : FetchEnv) : Option String :=
  match env.getResp with
  | .error _ => none
  | .ok r =>
    if 400 ≤ r.status ∧ r.status < 600 then none
    else
      match env.writeOk with
      | .error _ => none
      | .ok _ => some (IMG_DIR ++ "/" ++ name ++ ".jpg")

/- ---------- build_presentation ---------- -/

/-- The content of one rendered slide: whether the background rectangle was
added, the title box text, the body paragraphs, the inserted picture path
(if any), the footer text, and the speaker-notes text. -/
structure BuiltSlide where
  background : Bool
  title : String
  bodyParagraphs : List String
  picture : Option String
  footer : String
  notes : String

/-- Oracle for build_presentation: whether the background-shape block raises
for a given slide, os.path.exists, whether add_picture raises for a given
path, and the outcome of prs.save. -/
structure BuildEnv where
  addBgRaises : SlideSpec → Bool
  fileExists : String → Bool
  addPictureRaises : String → Bool
  saveOk : Except PyErr Unit

/-- The footer caption placed on every slide. -/
def footerText : String := "AI in Mobile Phones — Droplet theme"

/-- The body text-frame loop: a fresh frame has one empty paragraph; the
first bullet overwrites paragraph 0, later bullets are appended. -/
def bodyParas (bullets : List String) : List String :=
  (bullets.foldl
    (fun st b => if st.2 then (st.1.set 0 b, false) else (st.1 ++ [b], false))
    ([""], true)).1

/-- image_paths.get of the Python dict: None when the key is missing. -/
def getPath (ps : List (String × Option String)) (k : String) : Option String :=
  (ps.lookup k).getD none

/-- One iteration of the build loop on slide descriptor s: background inside
try/except, title box, bullet paragraphs, conditional picture insert inside
try/except (Python truthiness skips None and the empty-string path), footer,
notes. -/
def buildSlide (env : BuildEnv) (paths : List (String × Option String))
    (s : SlideSpec) : BuiltSlide :=
  { background := !env.addBgRaises s
    title := s.title
    bodyParagraphs := bodyParas s.bullets
    picture :=
      match getPath paths s.image with
      | none => none
      | some ip =>
        if ip = "" then none
        else if env.fileExists ip then
          (if env.addPictureRaises ip then none else some ip)
        else none
    footer := footerText
    notes := s.notes }

/-- The deck accumulated by the build loop, in table order. -/
def buildDeck (env : BuildEnv) (paths : List (String × Option String)) :
    List BuiltSlide :=
  slides.map (buildSlide env paths)

/-- build_presentation: build the deck, then prs.save (which may raise). -/
def build_presentation (env : BuildEnv)
    (paths : List (String × Option String)) :
    Except PyErr (List BuiltSlide) :=
  match env.saveOk with
  | .error e => .error e
  | .ok _ => .ok (buildDeck env paths)

/- ---------- upload_to_dropbox ---------- -/

/-- Oracle for one upload_to_dropbox call: the outcome of reading the local
file, of the upload POST, of the share-link POST, and of parsing the
share response JSON and reading its url field. -/
structure UploadEnv where
  readFile : Except PyErr Unit
  uploadPost : Except PyErr HttpResp
  sharePost : Except PyErr HttpResp
  shareJson : Except PyErr (Option String)

/-- The link rewrite at the end of upload_to_dropbox: Python truthiness
skips None and the empty string; otherwise, when dl=0 occurs in the link,
every occurrence of ?dl=0 is replaced by ?dl=1. -/
def fixLink : Option String → Option String
  | none => none
  | some l =>
    if l = "" then some l
    else if containsSub dlMark l.data then some (String.mk (replaceDl l.data))
    else some l

/-- upload_to_dropbox: read the file, POST to the upload endpoint, and on a
200/201 status POST to the share-link endpoint and return the rewritten
url field; on a non-success status of either POST return None. No call is
wrapped in try/except, so a raised exception escapes as an error. The
second component records which Dropbox requests were actually issued. -/
def upload_to_dropbox (env : UploadEnv) :
    Except PyErr (Option String) × List Req :=
  match env.readFile with
  | .error e => (.error e, [])
  | .ok _ =>
    match env.uploadPost with
    | .error e => (.error e, [.upload])
    | .ok r =>
      if r.status = 200 ∨ r.status = 201 then
        match env.sharePost with
        | .error e => (.error e, [.upload, .share])
        | .ok r2 =>
          if r2.status = 200 ∨ r2.status = 201 then
            match env.shareJson with
            | .error e => (.error e, [.upload, .share])
            | .ok link => (.ok (fixLink link), [.upload, .share])
          else (.ok none, [.upload, .share])
      else (.ok none, [.upload])

/- ---------- outbound request call sites (method, url, timeout) ---------- -/

/-- HTTP method of an outbound call site. -/
inductive HttpMethod where
  | get
  | post
deriving DecidableEq

/-- A static description of one outbound requests call site of the script:
its method, the url it targets, and the timeout argument passed (None when
the call carries no timeout, so it may block indefinitely). -/
structure RequestSite where
  method : HttpMethod
  url : String
  timeout : Option Nat

/-- The requests.get call site in download_placeholder: timeout=15. -/
def imageGetSite (maxW maxH : Nat) (query : String) : RequestSite :=
  { method := .get
    url := "https://source.unsplash.com/featured/" ++ toString maxW ++ "x" ++
           toString maxH ++ "/?" ++ query
    timeout := some 15 }

/-- The upload requests.post call site in upload_to_dropbox: no timeout
argument. -/
def uploadPostSite : RequestSite :=
  { method := .post
    url := "https://content.dropboxapi.com/2/files/upload"
    timeout := none }

/-- The share-link requests.post call site in upload_to_dropbox: no timeout
argument. -/
def sharePostSite : RequestSite :=
  { method := .post
    url := "https://api.dropboxapi.com/2/sharing/create_shared_link_with_settings"
    timeout := none }

/-- All outbound request call sites the program executes, given the image
query string (the GET uses the default dimensions 1600x900). -/
def outboundSites (query : String) : List RequestSite :=
  [imageGetSite 1600 900 query, uploadPostSite, sharePostSite]

/- ---------- Dropbox-API-Arg header and destination semantics ---------- -/

/-- The JSON argument header sent with the upload POST. -/
structure DropboxApiArg where
  path : String
  mode : String
  autorename : Bool
  mute : Bool

/-- The Dropbox-API-Arg value built by upload_to_dropbox for a destination
path: mode overwrite, autorename false, mute false. -/
def uploadApiArg (destPath : String) : DropboxApiArg :=
  { path := destPath, mode := "overwrite", autorename := false, mute := false }

/-- The fixed default destination path of upload_to_dropbox. -/
def defaultDestPath : String := "/AI_in_Mobile_Phones_Droplet.pptx"

/-- Modelled from the spec: the Dropbox server side is not part of this
repository; per the spec, an upload in overwrite mode stores the uploaded
bytes at the destination path, replacing any prior file there, and leaves
every other path unchanged. -/
def dropboxStoreApply (store : String → Option String) (arg : DropboxApiArg)
    (content : String) : String → Option String :=
  fun p => if arg.mode = "overwrite" ∧ p = arg.path then some content else store p

/- ---------- main ---------- -/

/-- Python str.strip(): remove leading and trailing whitespace characters. -/
def pyStrip (s : String) : String :=
  String.mk
    (((s.data.dropWhile Char.isWhitespace).reverse.dropWhile
        Char.isWhitespace).reverse)

/-- Token resolution at the top of main: os.getenv result (None when unset),
Python truthiness (None and the empty string fall back to the prompt, whose
input is stripped); a truthy environment value is used as-is. -/
def resolveToken (envVar : Option String) (promptInput : String) : String :=
  match envVar with
  | none => pyStrip promptInput
  | some t => if t = "" then pyStrip promptInput else t

/-- The final message printed when the link is truthy. -/
def doneMsg : String := "Done. Use the link above to download the PPTX."

/-- The final message printed when the link is falsy. -/
def issuesMsg : String := "Upload completed with issues. Check errors above."

/-- Python truthiness of the returned link: None and the empty string are
falsy. -/
def optTruthy : Option String → Bool
  | none => false
  | some s => !(s = "")

/-- Oracle for a whole run of main. -/
structure MainEnv where
  dropboxToken : Option String
  promptInput : String
  fetch : String → FetchEnv
  build : BuildEnv
  upload : UploadEnv

/-- The image_paths dict built by the download loop of main, in
IMAGE_QUERIES order. -/
def image_paths (env : MainEnv) : List (String × Option String) :=
  IMAGE_QUERIES.map (fun kq => (kq.1, download_placeholder kq.1 (env.fetch kq.1)))

namespace Script

/-- main: resolve the token, download the images (never raises), build and
save the presentation (save may raise), upload (may raise), then print the
final message chosen by the truthiness of the link. The result is the link
together with the final message; an uncaught exception is an error. -/
def main (env : MainEnv) : Except PyErr (Option String × String) :=
  let _token := resolveToken env.dropboxToken env.promptInput
  let paths := image_paths env
  match build_presentation env.build paths with
  | .error e => .error e
  | .ok _deck =>
    match (upload_to_dropbox env.upload).1 with
    | .error e => .error e
    | .ok link => .ok (link, if optTruthy link then doneMsg else issuesMsg)

end Script

/- ---------- concrete oracle instances for witnesses ---------- -/

/-- A run in which the upload endpoint is unreachable: requests.post raises
a connection error; everything before the upload succeeds. -/
def c2CexEnv : MainEnv :=
  { dropboxToken := some "tok"
    promptInput := ""
    fetch := fun _ => { getResp := .error .connectionError, writeOk := .ok () }
    build := { addBgRaises := fun _ => false, fileExists := fun _ => false,
               addPictureRaises := fun _ => false, saveOk := .ok () }
    upload := { readFile := .ok (), uploadPost := .error .connectionError,
                sharePost := .ok { status := 200, text := "" },
                shareJson := .ok none } }

/-- A run with an invalid credential: both POSTs return responses, the
upload one with status 401. -/
def c2OkEnv : MainEnv :=
  { dropboxToken := none
    promptInput := " tok "
    fetch := fun _ => { getResp := .ok { status := 200, text := "" },
                        writeOk := .ok () }
    build := { addBgRaises := fun _ => false, fileExists := fun _ => true,
               addPictureRaises := fun _ => false, saveOk := .ok () }
    upload := { readFile := .ok (),
                uploadPost := .ok { status := 401, text := "invalid_access_token" },
                sharePost := .ok { status := 200, text := "" },
                shareJson := .ok none } }

/-- A successful upload whose share link carries the preview marker after an
ampersand rather than after a question mark. -/
def c3CexEnv : UploadEnv :=
  { readFile := .ok (), uploadPost := .ok { status := 200, text := "" },
    sharePost := .ok { status := 200, text := "" },
    shareJson := .ok (some "https://x/f.pptx?k=v&dl=0") }

/-- A successful upload whose share link ends with the preview query
suffix. -/
def c3WEnv : UploadEnv :=
  { readFile := .ok (), uploadPost := .ok { status := 200, text := "" },
    sharePost := .ok { status := 200, text := "" },
    shareJson := .ok (some "https://x/f.pptx?dl=0") }

/-- A build oracle in which the background block and add_picture both
raise. -/
def c4Env : BuildEnv :=
  { addBgRaises := fun _ => true
    fileExists := fun _ => true
    addPictureRaises := fun _ => true
    saveOk := .ok () }

/-- An image map resolving the agenda key. -/
def c4Paths : List (String × Option String) :=
  [("agenda", some "ppt_images/agenda.jpg")]

/-- The example descriptor of the spec scenario. -/
def c4Slide : SlideSpec :=
  { title := "Agenda", bullets := ["A", "B"], notes := "x", image := "agenda" }

/-- A build oracle in which no path exists on disk. -/
def c5Env : BuildEnv :=
  { addBgRaises := fun _ => false
    fileExists := fun _ => false
    addPictureRaises := fun _ => false
    saveOk := .ok () }

/-- An image map whose agenda entry is None (failed download). -/
def c5Paths : List (String × Option String) := [("agenda", none)]

/-- A descriptor used to exercise the missing-image path. -/
def c5Slide : SlideSpec :=
  { title := "Agenda", bullets := ["A", "B"], notes := "x", image := "agenda" }

/-- A fetch returning a redirect status: raise_for_status does not raise. -/
def c6Fetch302 : FetchEnv :=
  { getResp := .ok { status := 302, text := "" }, writeOk := .ok () }

/-- A fetch that succeeds with status 200. -/
def c6EnvOk : FetchEnv :=
  { getResp := .ok { status := 200, text := "" }, writeOk := .ok () }

/-- A fetch in which requests.get raises. -/
def c6EnvErr : FetchEnv :=
  { getResp := .error .connectionError, writeOk := .ok () }

/-- An upload returning a non-success status 409. -/
def c7EnvFail : UploadEnv :=
  { readFile := .ok (), uploadPost := .ok { status := 409, text := "conflict" },
    sharePost := .ok { status := 200, text := "" }, shareJson := .ok none }

/-- An upload returning 200 whose share request returns 500. -/
def c7EnvOk : UploadEnv :=
  { readFile := .ok (), uploadPost := .ok { status := 200, text := "" },
    sharePost := .ok { status := 500, text := "err" }, shareJson := .ok none }

/-- An empty remote file store. -/
def c9Store : String → Option String := fun _ => none

/- ---------- helper lemmas ---------- -/

theorem isPrefixOf_self (l : List Char) : l.isPrefixOf l = true := by
  induction l with
  | nil => rfl
  | cons c cs ih => simp [List.isPrefixOf, ih]

theorem containsSub_of_suffix (pat l : List Char) (h : pat <:+ l) :
    containsSub pat l = true := by
  induction l with
  | nil =>
    obtain ⟨t, ht⟩ := h
    rcases List.append_eq_nil.mp ht with ⟨_, hp⟩
    simp [containsSub, hp]
  | cons c cs ih =>
    obtain ⟨t, ht⟩ := h
    cases t with
    | nil =>
      simp only [List.nil_append] at ht
      simp [containsSub, ht, isPrefixOf_self]
    | cons c' t' =>
      simp only [List.cons_append, List.cons.injEq] at ht
      have hcs : pat <:+ cs := ⟨t', ht.2⟩
      simp [containsSub, ih hcs]

theorem dlMark_suffix_of_dl0 (l : List Char) (h : dl0 <:+ l) : dlMark <:+ l :=
  List.IsSuffix.trans ⟨['?'], rfl⟩ h

theorem suffix_of_replace_target (c : Char) (cs : List Char)
    (hpre : dl0.isPrefixOf (c :: cs) = true) (h : dl0 <:+ c :: cs)
    (hne : cs.drop 4 ≠ []) : dl0 <:+ cs.drop 4 := by
  have hdl : dl0.length = 5 := rfl
  have hpfx : dl0 <+: c :: cs := List.isPrefixOf_iff_prefix.mp hpre
  obtain ⟨m, hm⟩ := hpfx
  have hmdrop : m = cs.drop 4 := by
    have h5 := congrArg (List.drop 5) hm
    rw [show (5 : Nat) = dl0.length from rfl, List.drop_left] at h5
    simpa [dl0] using h5
  rw [← hmdrop] at hne ⊢
  obtain ⟨t, ht⟩ := h
  have hl1 := congrArg List.length ht
  have hl2 := congrArg List.length hm
  rw [List.length_append, hdl] at hl1 hl2
  simp only [List.length_cons] at hl1 hl2
  have hkey : dl0 = List.drop t.length (dl0 ++ m) := by
    have hd := congrArg (List.drop t.length) ht
    rw [List.drop_left] at hd
    rw [← hm] at hd
    exact hd
  by_cases hge : 5 ≤ t.length
  · rw [List.drop_append_eq_append_drop] at hkey
    rw [show List.drop t.length dl0 = [] from List.drop_eq_nil_of_le (by omega)]
      at hkey
    simp only [List.nil_append] at hkey
    rw [hkey]
    exact List.drop_suffix _ _
  · exfalso
    push_neg at hge
    have hk1 : 1 ≤ t.length := by
      by_contra h0
      push_neg at h0
      have hm0 : m.length = 0 := by omega
      exact hne (List.length_eq_zero.mp hm0)
    rw [List.drop_append_eq_append_drop,
      show t.length - dl0.length = 0 by omega, List.drop_zero] at hkey
    have htake := congrArg (List.take (5 - t.length)) hkey
    rw [show (5 - t.length : Nat) = (List.drop t.length dl0).length by
      rw [List.length_drop, hdl], List.take_left] at htake
    generalize hkk : t.length = k at htake hge hk1
    interval_cases k <;> exact absurd htake (by decide)

theorem replaceDlGo_suffix (n : Nat) : ∀ l : List Char, l.length ≤ n →
    dl0 <:+ l → dl1 <:+ replaceDlGo n l := by
  induction n with
  | zero =>
    intro l hlen h
    have hnil : l = [] := List.length_eq_zero.mp (Nat.le_zero.mp hlen)
    subst hnil
    exact absurd h (by decide)
  | succ n ih =>
    intro l hlen h
    cases l with
    | nil => exact absurd h (by decide)
    | cons c cs =>
      by_cases hpre : dl0.isPrefixOf (c :: cs) = true
      · rw [replaceDlGo, if_pos hpre]
        by_cases hnil : cs.drop 4 = []
        · rw [hnil]
          simp [replaceDlGo]
        · have hsuf := suffix_of_replace_target c cs hpre h hnil
          have hlen4 : (cs.drop 4).length ≤ n := by
            simp only [List.length_cons] at hlen
            simp only [List.length_drop]
            omega
          exact List.IsSuffix.trans (ih (cs.drop 4) hlen4 hsuf)
            (List.suffix_append _ _)
      · rw [replaceDlGo, if_neg hpre]
        obtain ⟨t, ht⟩ := h
        cases t with
        | nil =>
          simp only [List.nil_append] at ht
          exact absurd (ht ▸ isPrefixOf_self dl0) hpre
        | cons c' t' =>
          simp only [List.cons_append, List.cons.injEq] at ht
          have hlen1 : cs.length ≤ n := by
            simp only [List.length_cons] at hlen
            omega
          obtain ⟨u, hu⟩ := ih cs hlen1 ⟨t', ht.2⟩
          exact ⟨c :: u, by simp [hu]⟩

theorem replaceDl_suffix (l : List Char) (h : dl0 <:+ l) :
    dl1 <:+ replaceDl l :=
  replaceDlGo_suffix l.length l le_rfl h

/- ---------- claim theorems ---------- -/

/-- Claim C1 (confirmed): for every entry of the static slides table,
build_presentation adds exactly one slide to the deck, in table order, and
on that slide the title box holds the descriptor title, the body holds one
paragraph per bullet with the bullet text verbatim, and the speaker-notes
text equals the descriptor notes string, whatever the image map and the
background or picture oracles do. -/
theorem c1_one_slide_per_descriptor (env : BuildEnv)
    (paths : List (String × Option String)) :
    (buildDeck env paths).length = slides.length ∧
    (buildDeck env paths).map (fun b => (b.title, b.bodyParagraphs, b.notes)) =
      slides.map (fun s => (s.title, s.bullets, s.notes)) := by
  constructor
  · simp [buildDeck]
  · rfl

/-- Claim C4 (confirmed): when the background block raises and add_picture
raises on the resolved image path, both exceptions are caught locally and
the slide is still built with its title, bullet paragraphs, footer and
notes; only the background and picture elements are missing. -/
theorem c4_element_failures_contained (env : BuildEnv)
    (paths : List (String × Option String)) (s : SlideSpec) (ip : String)
    (hbg : env.addBgRaises s = true)
    (hip : getPath paths s.image = some ip)
    (hne : ip ≠ "")
    (hex : env.fileExists ip = true)
    (hpic : env.addPictureRaises ip = true) :
    (buildSlide env paths s).title = s.title ∧
    (buildSlide env paths s).bodyParagraphs = bodyParas s.bullets ∧
    (buildSlide env paths s).footer = footerText ∧
    (buildSlide env paths s).notes = s.notes ∧
    (buildSlide env paths s).background = false ∧
    (buildSlide env paths s).picture = none := by
  refine ⟨rfl, rfl, rfl, rfl, ?_, ?_⟩
  · simp [buildSlide, hbg]
  · simp [buildSlide, hip, hne, hex, hpic]

/-- Witness for C4 at the spec example descriptor with both element
oracles raising. -/
theorem c4_element_failures_witness :
    (buildSlide c4Env c4Paths c4Slide).title = c4Slide.title ∧
    (buildSlide c4Env c4Paths c4Slide).bodyParagraphs = bodyParas c4Slide.bullets ∧
    (buildSlide c4Env c4Paths c4Slide).footer = footerText ∧
    (buildSlide c4Env c4Paths c4Slide).notes = c4Slide.notes ∧
    (buildSlide c4Env c4Paths c4Slide).background = false ∧
    (buildSlide c4Env c4Paths c4Slide).picture = none :=
  c4_element_failures_contained c4Env c4Paths c4Slide "ppt_images/agenda.jpg"
    rfl rfl (by decide) rfl rfl

/-- Claim C5 (confirmed): when the resolved image path of a descriptor is
None or names a file that does not exist on disk, the slide is still built
with title, bullet paragraphs, footer and notes, and only the picture
element is omitted. -/
theorem c5_slide_without_image (env : BuildEnv)
    (paths : List (String × Option String)) (s : SlideSpec)
    (h : ∀ ip : String, getPath paths s.image = some ip →
      env.fileExists ip = false) :
    (buildSlide env paths s).title = s.title ∧
    (buildSlide env paths s).bodyParagraphs = bodyParas s.bullets ∧
    (buildSlide env paths s).footer = footerText ∧
    (buildSlide env paths s).notes = s.notes ∧
    (buildSlide env paths s).picture = none := by
  refine ⟨rfl, rfl, rfl, rfl, ?_⟩
  rcases hip : getPath paths s.image with _ | ip
  · simp [buildSlide, hip]
  · by_cases hemp : ip = ""
    · simp [buildSlide, hip, hemp]
    · simp [buildSlide, hip, hemp, h ip hip]

/-- Witness for C5 at a descriptor whose download failed (None path). -/
theorem c5_slide_without_image_witness :
    (buildSlide c5Env c5Paths c5Slide).title = c5Slide.title ∧
    (buildSlide c5Env c5Paths c5Slide).bodyParagraphs = bodyParas c5Slide.bullets ∧
    (buildSlide c5Env c5Paths c5Slide).footer = footerText ∧
    (buildSlide c5Env c5Paths c5Slide).notes = c5Slide.notes ∧
    (buildSlide c5Env c5Paths c5Slide).picture = none :=
  c5_slide_without_image c5Env c5Paths c5Slide
    (fun _ hip => Option.noConfusion hip)

/-- Counterexample for C2: with the upload endpoint unreachable the
requests.post call in upload_to_dropbox raises, nothing catches the
exception, and main does not reach normal completion. -/
theorem c2_unreachable_endpoint_raises :
    Script.main c2CexEnv = .error PyErr.connectionError := rfl

/-- Claim C2 (amended): on every run in which the pptx save succeeds and
the file read, the upload POST, the share POST and the share JSON parse
return without raising, main reaches normal completion, prints either the
success or the partial-completion message, prints the partial-completion
message when the link is null, and yields a null link whenever the upload
status is not a success. -/
theorem c2_main_total_when_responses_arrive (env : MainEnv) (r r2 : HttpResp)
    (u : Option String)
    (hsave : env.build.saveOk = .ok ())
    (hread : env.upload.readFile = .ok ())
    (hup : env.upload.uploadPost = .ok r)
    (hshare : env.upload.sharePost = .ok r2)
    (hjson : env.upload.shareJson = .ok u) :
    ∃ link msg, Script.main env = .ok (link, msg) ∧
      (msg = doneMsg ∨ msg = issuesMsg) ∧
      (link = none → msg = issuesMsg) ∧
      (¬(r.status = 200 ∨ r.status = 201) → link = none) := by
  by_cases hs : r.status = 200 ∨ r.status = 201
  · by_cases hs2 : r2.status = 200 ∨ r2.status = 201
    · refine ⟨fixLink u, if optTruthy (fixLink u) then doneMsg else issuesMsg,
        ?_, ?_, ?_, ?_⟩
      · simp [Script.main, build_presentation, hsave, upload_to_dropbox,
          hread, hup, hs, hshare, hs2, hjson]
      · by_cases ht : optTruthy (fixLink u) = true <;> simp [ht]
      · intro hl
        simp [hl, optTruthy]
      · intro hns
        exact absurd hs hns
    · refine ⟨none, issuesMsg, ?_, Or.inr rfl, fun _ => rfl, fun _ => rfl⟩
      simp [Script.main, build_presentation, hsave, upload_to_dropbox,
        hread, hup, hs, hshare, hs2, optTruthy]
  · refine ⟨none, issuesMsg, ?_, Or.inr rfl, fun _ => rfl, fun _ => rfl⟩
    simp [Script.main, build_presentation, hsave, upload_to_dropbox,
      hread, hup, hs, optTruthy]

/-- Witness for C2 (amended) at an invalid-credential run: the upload
endpoint answers 401, main completes with a null link. -/
theorem c2_main_total_witness :
    ∃ link msg, Script.main c2OkEnv = .ok (link, msg) ∧
      (msg = doneMsg ∨ msg = issuesMsg) ∧
      (link = none → msg = issuesMsg) ∧
      (¬((401 : Nat) = 200 ∨ (401 : Nat) = 201) → link = none) :=
  c2_main_total_when_responses_arrive c2OkEnv
    { status := 401, text := "invalid_access_token" }
    { status := 200, text := "" } none rfl rfl rfl rfl rfl

/-- Counterexample for C3: the upload and the share-link request both
succeed, the endpoint returns a link carrying the preview marker after an
ampersand, and upload_to_dropbox returns it unchanged: the result still
contains dl=0 and does not end in the direct-download suffix dl=1. -/
theorem c3_preview_marker_survives :
    (upload_to_dropbox c3CexEnv).1 = .ok (some "https://x/f.pptx?k=v&dl=0") ∧
    containsSub dlMark "https://x/f.pptx?k=v&dl=0".data = true ∧
    List.isSuffixOf dl1 "https://x/f.pptx?k=v&dl=0".data = false :=
  ⟨by rfl, by rfl, by rfl⟩

/-- Claim C3 (amended): whenever the upload succeeds and the share-link
request succeeds and the returned link ends with the preview query suffix
?dl=0, upload_to_dropbox returns a non-null link ending with the
direct-download suffix ?dl=1. -/
theorem c3_direct_download_when_query_suffix (env : UploadEnv)
    (r r2 : HttpResp) (l : String)
    (hread : env.readFile = .ok ())
    (hup : env.uploadPost = .ok r) (hs : r.status = 200 ∨ r.status = 201)
    (hshare : env.sharePost = .ok r2)
    (hs2 : r2.status = 200 ∨ r2.status = 201)
    (hjson : env.shareJson = .ok (some l))
    (hsuf : dl0 <:+ l.data) :
    ∃ l2 : String, (upload_to_dropbox env).1 = .ok (some l2) ∧
      dl1 <:+ l2.data := by
  have hne : ¬ l = "" := by
    intro he
    subst he
    obtain ⟨t, ht⟩ := hsuf
    exact absurd (List.append_eq_nil.mp ht).2 (by decide)
  have hc : containsSub dlMark l.data = true :=
    containsSub_of_suffix dlMark l.data (dlMark_suffix_of_dl0 l.data hsuf)
  refine ⟨String.mk (replaceDl l.data), ?_, ?_⟩
  · simp [upload_to_dropbox, hread, hup, hs, hshare, hs2, hjson, fixLink,
      hne, hc]
  · exact replaceDl_suffix l.data hsuf

/-- Witness for C3 (amended) at a share link ending with ?dl=0. -/
theorem c3_direct_download_witness :
    ∃ l2 : String, (upload_to_dropbox c3WEnv).1 = .ok (some l2) ∧
      dl1 <:+ l2.data :=
  c3_direct_download_when_query_suffix c3WEnv { status := 200, text := "" }
    { status := 200, text := "" } "https://x/f.pptx?dl=0" rfl rfl (Or.inl rfl)
    rfl (Or.inl rfl) rfl ⟨"https://x/f.pptx".data, rfl⟩

/-- Counterexample for C6: a redirect status 302 is non-2xx, yet
raise_for_status does not raise on it, so download_placeholder writes the
file and returns the path instead of None. -/
theorem c6_redirect_returns_path :
    download_placeholder "agenda" c6Fetch302 = some "ppt_images/agenda.jpg" ∧
    ¬((302 : Nat) = 200 ∨ (302 : Nat) = 201) :=
  ⟨rfl, by decide⟩

/-- Claim C6 (amended): download_placeholder returns the path
IMG_DIR/name.jpg exactly when the GET returns a response whose status is
not a 4xx/5xx and the local write succeeds; it returns None when the GET
raises, when the status is 4xx/5xx (raise_for_status) or when the write
raises. -/
theorem c6_download_outcomes (name : String) (env : FetchEnv) :
    (∀ r : HttpResp, env.getResp = .ok r →
      ¬(400 ≤ r.status ∧ r.status < 600) → env.writeOk = .ok () →
      download_placeholder name env =
        some (IMG_DIR ++ "/" ++ name ++ ".jpg")) ∧
    (∀ e : PyErr, env.getResp = .error e →
      download_placeholder name env = none) ∧
    (∀ r : HttpResp, env.getResp = .ok r → 400 ≤ r.status → r.status < 600 →
      download_placeholder name env = none) ∧
    (∀ (e : PyErr) (r : HttpResp), env.writeOk = .error e →
      env.getResp = .ok r → ¬(400 ≤ r.status ∧ r.status < 600) →
      download_placeholder name env = none) := by
  refine ⟨?_, ?_, ?_, ?_⟩
  · intro r hr hst hw
    simp [download_placeholder, hr, hst, hw]
  · intro e he
    simp [download_placeholder, he]
  · intro r hr h4 h6
    simp [download_placeholder, hr, h4, h6]
  · intro e r hw hr hst
    simp [download_placeholder, hr, hst, hw]

/-- Witness for C6 (amended): a 200 fetch returns the path; a raised
connection error returns None. -/
theorem c6_download_outcomes_witness :
    download_placeholder "title" c6EnvOk = some "ppt_images/title.jpg" ∧
    download_placeholder "title" c6EnvErr = none :=
  ⟨(c6_download_outcomes "title" c6EnvOk).1 { status := 200, text := "" }
      rfl (by decide) rfl,
   (c6_download_outcomes "title" c6EnvErr).2.1 .connectionError rfl⟩

/-- Claim C7 (confirmed): when the upload POST returns a non-success
status, upload_to_dropbox returns a null link and the share-link request is
never issued; when the status is a success, the share-link request is
issued. -/
theorem c7_share_request_gating (env : UploadEnv) (r : HttpResp)
    (hread : env.readFile = .ok ()) (hup : env.uploadPost = .ok r) :
    (¬(r.status = 200 ∨ r.status = 201) →
      upload_to_dropbox env = (.ok none, [Req.upload])) ∧
    ((r.status = 200 ∨ r.status = 201) →
      Req.share ∈ (upload_to_dropbox env).2) := by
  constructor
  · intro hns
    simp [upload_to_dropbox, hread, hup, hns]
  · intro hs
    have htrace : (upload_to_dropbox env).2 = [Req.upload, Req.share] := by
      rcases hsp : env.sharePost with e | r2
      · simp [upload_to_dropbox, hread, hup, hs, hsp]
      · by_cases hs2 : r2.status = 200 ∨ r2.status = 201
        · rcases hj : env.shareJson with e2 | lnk <;>
            simp [upload_to_dropbox, hread, hup, hs, hsp, hs2, hj]
        · simp [upload_to_dropbox, hread, hup, hs, hsp, hs2]
    rw [htrace]
    simp

/-- Witness for C7: a 409 upload answer yields a null link with only the
upload request issued; a 200 upload answer issues the share request. -/
theorem c7_share_request_gating_witness :
    upload_to_dropbox c7EnvFail = (.ok none, [Req.upload]) ∧
    Req.share ∈ (upload_to_dropbox c7EnvOk).2 :=
  ⟨(c7_share_request_gating c7EnvFail { status := 409, text := "conflict" }
      rfl rfl).1 (by decide),
   (c7_share_request_gating c7EnvOk { status := 200, text := "" }
      rfl rfl).2 (Or.inl rfl)⟩

/-- Counterexample for C8: not every outbound request carries a timeout;
the upload POST and the share POST call sites pass none. -/
theorem c8_post_without_timeout :
    ((outboundSites "smartphone,technology").all
      (fun s => s.timeout.isSome)) = false ∧
    uploadPostSite.timeout = none ∧ sharePostSite.timeout = none :=
  ⟨rfl, rfl, rfl⟩

/-- Claim C8 (amended): only the image GET call site carries a bounded
timeout (15 seconds); the upload POST and share-link POST call sites are
issued with no timeout at all. -/
theorem c8_timeouts_by_call_site (query : String) (maxW maxH : Nat) :
    (imageGetSite maxW maxH query).timeout = some 15 ∧
    uploadPostSite.timeout = none ∧
    sharePostSite.timeout = none :=
  ⟨rfl, rfl, rfl⟩

/-- Claim C9 (confirmed): every upload request carries the same fixed
destination path with mode overwrite and autorename disabled, and under
the spec-modelled Dropbox destination semantics applying the upload twice
equals applying it once: the destination holds exactly the last content
and no other path is touched. -/
theorem c9_overwrite_idempotent (store : String → Option String)
    (content1 content2 p : String) (hp : p ≠ defaultDestPath) :
    (uploadApiArg defaultDestPath).mode = "overwrite" ∧
    (uploadApiArg defaultDestPath).autorename = false ∧
    (uploadApiArg defaultDestPath).path = defaultDestPath ∧
    dropboxStoreApply (dropboxStoreApply store (uploadApiArg defaultDestPath)
        content1) (uploadApiArg defaultDestPath) content2
      = dropboxStoreApply store (uploadApiArg defaultDestPath) content2 ∧
    dropboxStoreApply store (uploadApiArg defaultDestPath) content2
      defaultDestPath = some content2 ∧
    dropboxStoreApply store (uploadApiArg defaultDestPath) content2 p
      = store p := by
  refine ⟨rfl, rfl, rfl, ?_, ?_, ?_⟩
  · funext q
    by_cases hq : q = defaultDestPath <;>
      simp [dropboxStoreApply, uploadApiArg, hq]
  · simp [dropboxStoreApply, uploadApiArg]
  · simp [dropboxStoreApply, uploadApiArg, hp]

/-- Witness for C9 on the empty store with two successive uploads. -/
theorem c9_overwrite_idempotent_witness :
    dropboxStoreApply (dropboxStoreApply c9Store (uploadApiArg defaultDestPath)
        "v1") (uploadApiArg defaultDestPath) "v2"
      = dropboxStoreApply c9Store (uploadApiArg defaultDestPath) "v2" ∧
    dropboxStoreApply c9Store (uploadApiArg defaultDestPath) "v2"
      defaultDestPath = some "v2" ∧
    dropboxStoreApply c9Store (uploadApiArg defaultDestPath) "v2" "/other"
      = c9Store "/other" :=
  ⟨(c9_overwrite_idempotent c9Store "v1" "v2" "/other" (by decide)).2.2.2.1,
   (c9_overwrite_idempotent c9Store "v1" "v2" "/other" (by decide)).2.2.2.2.1,
   (c9_overwrite_idempotent c9Store "v1" "v2" "/other" (by decide)).2.2.2.2.2⟩

/-- Claim C10 (confirmed): an unset or empty DROPBOX_TOKEN falls back to
the hidden prompt, whose input is used with surrounding whitespace
stripped; a non-empty environment value is used exactly as-is, without
stripping. -/
theorem c10_token_resolution (t promptInput : String) (h : t ≠ "") :
    resolveToken none promptInput = pyStrip promptInput ∧
    resolveToken (some "") promptInput = pyStrip promptInput ∧
    resolveToken (some t) promptInput = t := by
  refine ⟨rfl, rfl, ?_⟩
  simp [resolveToken, h]

/-- Witness for C10 at a padded environment token and a padded prompt. -/
theorem c10_token_resolution_witness :
    resolveToken none "  secret  " = "secret" ∧
    resolveToken (some "") "  secret  " = "secret" ∧
    resolveToken (some " tok ") "  secret  " = " tok " :=
  ⟨(c10_token_resolution " tok " "  secret  " (by decide)).1.trans (by decide),
   (c10_token_resolution " tok " "  secret  " (by decide)).2.1.trans (by decide),
   (c10_token_resolution " tok " "  secret  " (by decide)).2.2⟩
